import Mathlib

set_option autoImplicit false

/-!
Shallow embedding of the UGRID compliance checker core
(cc_plugin_ugrid/checker.py, class UgridChecker).

The Dataset view is the read-only netCDF abstraction: named variables
(each with an ordered list of dimension names and an array shape) and
named dimensions (each with a name and a size).  The mesh context
registry (self.meshes[mesh], owned by the base class, which is not under
src/) is modelled as a total map from attribute keys to Python-like
values; Python exceptions are modelled with an Except monad, and a
caught exception corresponds to matching on the error constructor.
-/

/-- A netCDF dimension: a name and an integer size.  Python truthiness of
a netCDF4 Dimension goes through its length, i.e. its size. -/
structure Dimension where
  name : String
  size : Nat
deriving DecidableEq

/-- A netCDF variable as the checker uses it: its ordered dimension names
(`.dimensions` in netCDF4) and its array shape (`.shape`). -/
structure NcVar where
  dims : List String
  shape : List Nat
deriving DecidableEq

/-- The read-only Dataset view: named variables and named dimensions.
The field for ds.variables is called vars because the word is a
reserved legacy command in Lean. -/
structure Dataset where
  vars : List (String × NcVar)
  dimensions : List (String × Dimension)
deriving DecidableEq

def Dataset.getVar (ds : Dataset) (n : String) : Option NcVar :=
  (ds.vars.find? (fun p => p.1 == n)).map (fun p => p.2)

def Dataset.getDim (ds : Dataset) (n : String) : Option Dimension :=
  (ds.dimensions.find? (fun p => p.1 == n)).map (fun p => p.2)

def Dataset.hasVar (ds : Dataset) (n : String) : Bool :=
  (ds.getVar n).isSome

def Dataset.hasDim (ds : Dataset) (n : String) : Bool :=
  (ds.getDim n).isSome

/-- A mesh-topology variable: the checker only reads its string-valued
netCDF attributes, via `getncattr` (absence raises AttributeError, here
`Option.none`). -/
structure MeshVar where
  attrs : List (String × String)
deriving DecidableEq

def MeshVar.getncattr (m : MeshVar) (k : String) : Option String :=
  (m.attrs.find? (fun p => p.1 == k)).map (fun p => p.2)

/-- Python exceptions that the checker code can raise or catch. -/
inductive PyErr where
  | attributeError
  | keyError
  | valueError
  | typeError
  | notImplementedError
deriving DecidableEq

/-- A value stored in the mesh context registry: Python None, an int, a
string, a netCDF Dimension object, or a list of strings. -/
inductive CtxVal where
  | none
  | int (n : Int)
  | str (s : String)
  | dim (d : Dimension)
  | strlist (l : List String)
deriving DecidableEq

/-- Python truthiness of a context value (netCDF4 Dimension defines len
as its size, so a size-0 Dimension is falsy). -/
def CtxVal.truthy : CtxVal → Bool
  | CtxVal.none => false
  | CtxVal.int n => n != 0
  | CtxVal.str s => s != ""
  | CtxVal.dim d => d.size != 0
  | CtxVal.strlist l => !l.isEmpty

/-- Python str() of a context value, as interpolated into messages. -/
def CtxVal.pyStr : CtxVal → String
  | CtxVal.none => "None"
  | CtxVal.int n => toString n
  | CtxVal.str s => s
  | CtxVal.dim d => "Dimension " ++ d.name
  | CtxVal.strlist l => toString l

/-- Name of the Python type of a context value (the message in the
source interpolates type(...); the class-name core is modelled). -/
def CtxVal.typeName : CtxVal → String
  | CtxVal.none => "NoneType"
  | CtxVal.int _ => "int"
  | CtxVal.str _ => "str"
  | CtxVal.dim _ => "Dimension"
  | CtxVal.strlist _ => "list"

/-- Python equality test of a context value against a Python int (used
for len(ncoords) == topology_dimension). -/
def CtxVal.eqNat : CtxVal → Nat → Bool
  | CtxVal.int m, n => m == (n : Int)
  | _, _ => false

/-- Python attribute access value.size: only Dimension objects carry it;
anything else raises AttributeError. -/
def ctxSize : CtxVal → Except PyErr Nat
  | CtxVal.dim d => Except.ok d.size
  | _ => Except.error PyErr.attributeError

/-- Modelled from the spec: the per-mesh mutable attribute record of the
mesh context registry (populated by the base-class setup, which is not
under src/); every key is readable, with CtxVal.none for an absent or
null attribute. -/
def MeshCtx : Type := String → CtxVal

/-- Assignment self.meshes[mesh][k] = v. -/
def ctxSet (c : MeshCtx) (k : String) (v : CtxVal) : MeshCtx :=
  fun k' => if k' = k then v else c k'

/-- Build a concrete context from an association list. -/
def ctxOf (l : List (String × CtxVal)) : MeshCtx :=
  fun k =>
    match l.find? (fun p => p.1 == k) with
    | some p => p.2
    | Option.none => CtxVal.none

/-- The all-absent context. -/
def ctxEmpty : MeshCtx := fun _ => CtxVal.none

/-- Modelled from the spec: severity levels of the host framework
(compliance_checker BaseCheck, not under src/), displayed per the
display headers of the source as 3 = highly recommended, 2 = recommended,
1 = suggested. -/
def BaseCheck.HIGH : Nat := 3

def BaseCheck.MEDIUM : Nat := 2

def BaseCheck.LOW : Nat := 1

/-- Modelled from the spec: the graded CheckResult record built by the
base-class helper make_result (not under src/): severity level, score,
out_of, description and messages. -/
structure CheckResult where
  level : Nat
  score : Nat
  out_of : Nat
  desc : String
  messages : List String
deriving DecidableEq

def make_result (level score out_of : Nat) (desc : String) (messages : List String) :
    CheckResult :=
  ⟨level, score, out_of, desc, messages⟩

/-- Helper for Python str.split(" ") over the character list: separators
are not merged and empty parts are kept; the empty string gives one
empty part. -/
def splitChar : List Char → List (List Char)
  | [] => [[]]
  | c :: cs =>
    match splitChar cs with
    | [] => [[c]]
    | h :: t => if c = ' ' then [] :: h :: t else (c :: h) :: t

/-- Python str.split(" "). -/
def splitSpace (s : String) : List String :=
  (splitChar s.data).map (fun l => String.mk l)

/-- The three node-connectivity attribute names (the tuple tested in
_validate_nc_shape and the conns list of _check2_connectivity_attrs). -/
def conns : List String :=
  ["edge_node_connectivity", "face_node_connectivity", "volume_node_connectivity"]

def desc1 : String := "The topology dimension is the highest dimension of the data"

def msgTopoMissing : String :=
  "Mesh does not contain the required attribute \"topology_dimension\""

def msgTopoInvalid (v : CtxVal) : String :=
  "Invalid topology_dimension \"" ++ v.pyStr ++ "\" of type \"" ++ v.typeName ++ "\""

/-- _check1_topology_dim: the topology dimension must be one of 1, 2, 3. -/
def _check1_topology_dim (ctx : MeshCtx) : CheckResult :=
  let v := ctx "topology_dimension"
  let messages := if v.truthy then ([] : List String) else [msgTopoMissing]
  if v = CtxVal.int 1 ∨ v = CtxVal.int 2 ∨ v = CtxVal.int 3 then
    make_result BaseCheck.HIGH 1 1 desc1 messages
  else
    make_result BaseCheck.HIGH 0 1 desc1 (messages ++ [msgTopoInvalid v])

/-- Tail of _validate_nc_shape (source lines 546-562) once the
connectivity kind fixed the expected count-dimension name cname and the
fixed count k: regular ordering is tested first, then non-standard; on
either success the Dataset count dimension is written into the mesh
context under cname. -/
def validateFinish (ds : Dataset) (ctx : MeshCtx) (cname : String) (k : Nat)
    (dim1 dim2 : Dimension) : Except PyErr ((Bool × Option String) × MeshCtx) :=
  if dim1.name = cname ∧ dim2.size = k then
    match ds.getDim cname with
    | some d => Except.ok ((true, some "regular"), ctxSet ctx cname (CtxVal.dim d))
    | Option.none => Except.error PyErr.keyError
  else if dim1.size = k ∧ dim2.name = cname then
    match ds.getDim cname with
    | some d => Except.ok ((true, some "nonstd"), ctxSet ctx cname (CtxVal.dim d))
    | Option.none => Except.error PyErr.keyError
  else
    Except.ok ((false, Option.none), ctx)

/-- _validate_nc_shape: resolve the connectivity attribute to an array
and decide validity and ordering.  An absent attribute is caught
(AttributeError) and returns (False, None); a dangling variable name
makes ds.variables.get return None and the following .dimensions access
raise AttributeError uncaught; a dimension name absent from the Dataset
raises KeyError at the ds.dimensions[...] lookup (source line 533),
before the dead membership test of line 537; the volume kind reaches
raise NotImplementedError. -/
def _validate_nc_shape (ds : Dataset) (mesh : MeshVar) (ctx : MeshCtx) (cty : String) :
    Except PyErr ((Bool × Option String) × MeshCtx) :=
  if cty ∉ conns then
    Except.ok ((false, Option.none), ctx)
  else
    match mesh.getncattr cty with
    | Option.none => Except.ok ((false, Option.none), ctx)
    | some conn_array_name =>
      match ds.getVar conn_array_name with
      | Option.none => Except.error PyErr.attributeError
      | some arr =>
        match arr.dims with
        | [d1name, d2name] =>
          match ds.getDim d1name with
          | Option.none => Except.error PyErr.keyError
          | some dim1 =>
            match ds.getDim d2name with
            | Option.none => Except.error PyErr.keyError
            | some dim2 =>
              if !ds.hasDim dim1.name || !ds.hasDim dim2.name then
                Except.ok ((false, Option.none), ctx)
              else if cty = "edge_node_connectivity" then
                validateFinish ds ctx "nedges" 2 dim1 dim2
              else if cty = "face_node_connectivity" then
                validateFinish ds ctx "nfaces" 3 dim1 dim2
              else
                Except.error PyErr.notImplementedError
        | _ => Except.error PyErr.valueError

/-- The dim_map of __check_nonstd_order_dims__ (KeyError on other keys). -/
def dim_map (cty : String) : Option String :=
  if cty = "edge_node_connectivity" then some "edge_dimension"
  else if cty = "face_node_connectivity" then some "face_dimension"
  else Option.none

def msgDimMissing (dim_var : String) : String :=
  "Mesh does not contain " ++ dim_var ++ ", required when connectivity in non-standard order."

def msgDimDangling : String :=
  "Edge dimension defined in mesh, not defined in dataset dimensions."

/-- __check_edge_face_dim__: resolve the edge/face_dimension attribute
to a Dataset dimension and store it in the mesh context; AttributeError
(attribute missing) and KeyError (dimension not defined) are both
caught and turned into distinct (False, message) outcomes. -/
def __check_edge_face_dim__ (ds : Dataset) (mesh : MeshVar) (ctx : MeshCtx)
    (dim_var : String) : (Bool × Option String) × MeshCtx :=
  match mesh.getncattr dim_var with
  | Option.none => ((false, some (msgDimMissing dim_var)), ctx)
  | some dname =>
    match ds.getDim dname with
    | Option.none => ((false, some msgDimDangling), ctx)
    | some d => ((true, Option.none), ctxSet ctx dim_var (CtxVal.dim d))

/-- __check_nonstd_order_dims__: build a MEDIUM result around
__check_edge_face_dim__ (the source desc string contains the typo
"orderomg", kept as is). -/
def __check_nonstd_order_dims__ (ds : Dataset) (mesh : MeshVar) (ctx : MeshCtx)
    (cty : String) : Except PyErr (CheckResult × MeshCtx) :=
  match dim_map cty with
  | Option.none => Except.error PyErr.keyError
  | some dim_var =>
    let desc := dim_var ++ " required when dimension orderomg of " ++ cty ++
      " vars is non-standard order."
    match __check_edge_face_dim__ ds mesh ctx dim_var with
    | ((true, _), ctx2) => Except.ok (make_result BaseCheck.MEDIUM 1 1 desc [], ctx2)
    | ((false, some msg), ctx2) => Except.ok (make_result BaseCheck.MEDIUM 0 1 desc [msg], ctx2)
    | ((false, Option.none), ctx2) => Except.ok (make_result BaseCheck.MEDIUM 0 1 desc [], ctx2)

/-- The coordmap and varmap of __check_edge_face_coords__, combined:
connectivity kind to (coordinates attribute, count-dimension key). -/
def coordmap (cty : String) : Option (String × String) :=
  if cty = "edge_node_connectivity" then some ("edge_coordinates", "nedges")
  else if cty = "face_node_connectivity" then some ("face_coordinates", "nfaces")
  else Option.none

def descEFCoords : String :=
  "Edge coordinates point to aux coordinate variables representing locations of edges (usually midpoint)"

/-- Loop body of __check_edge_face_coords__: for each coordinate name,
len(ds.variables[coord]) (KeyError if absent, and an error when the
variable has no first dimension) is compared with
len(ds.dimensions[countKey]) (KeyError if absent). -/
def coordsLoop (ds : Dataset) (cName countKey : String) :
    List String → Nat → List String → Except PyErr (Nat × List String)
  | [], score, messages => Except.ok (score, messages)
  | coord :: rest, score, messages =>
    match ds.getVar coord with
    | Option.none => Except.error PyErr.keyError
    | some v =>
      match v.shape with
      | [] => Except.error PyErr.typeError
      | coordLen :: _ =>
        match ds.getDim countKey with
        | Option.none => Except.error PyErr.keyError
        | some d =>
          if coordLen ≠ d.size then
            coordsLoop ds cName countKey rest score
              (messages ++ [cName ++ " should have length of " ++ countKey])
          else
            coordsLoop ds cName countKey rest (score + 1) messages

/-- __check_edge_face_coords__: optional edge/face coordinates check;
its CheckResult is discarded by the caller, but its uncaught lookup
errors propagate. -/
def __check_edge_face_coords__ (ds : Dataset) (mesh : MeshVar) (ctx : MeshCtx)
    (cty : String) : Except PyErr CheckResult :=
  if (ctx cty).truthy = false then
    Except.ok (make_result BaseCheck.LOW 0 1 descEFCoords ["No " ++ cty ++ "?"])
  else
    match coordmap cty with
    | Option.none => Except.error PyErr.keyError
    | some (cName, countKey) =>
      match mesh.getncattr cName with
      | Option.none =>
        Except.ok (make_result BaseCheck.LOW 0 1 descEFCoords ["Optional attribute, not required"])
      | some coords =>
        match coordsLoop ds cName countKey (splitSpace coords) 0 [] with
        | Except.error e => Except.error e
        | Except.ok (score, messages) =>
          Except.ok (make_result BaseCheck.LOW score 1 descEFCoords messages)

def desc2 : String := "Interconnectivity: connection between elements in the mesh"

def msgNoTopo2 : String :=
  "Mesh does not contain the required attribute \"topology_dimension\", therefore any defined connectivity cannot be verified."

def msgInvalidConn (conn : String) : String :=
  "Dataset contains invalid \"" ++ conn ++ "\" array"

/-- The first loop of _check2_connectivity_attrs: the connectivity
attribute mandated by the topology dimension (1 edge, 2 face, 3 volume)
is absent from the context.  The source returns at the first matching
pair with out_of incremented once and the message never appended. -/
def mandatedAbsent (ctx : MeshCtx) : Bool :=
  (List.zip [(1 : Int), 2, 3] conns).any
    (fun p => !(ctx p.2).truthy && ctx "topology_dimension" == CtxVal.int p.1)

/-- Context effect of the conditional call of __check_nonstd_order_dims__
(source lines 109-110): run only when the resolver reported non-standard
ordering, and only for the context write, the CheckResult being
discarded. -/
def nonstdCtx (ds : Dataset) (mesh : MeshVar) (ctx : MeshCtx) (order : Option String)
    (conn : String) : Except PyErr MeshCtx :=
  if order = some "nonstd" then
    (__check_nonstd_order_dims__ ds mesh ctx conn).map (fun p => p.2)
  else
    Except.ok ctx

/-- Body of the scoring loop of _check2_connectivity_attrs for one
present connectivity attribute: run the shape resolver, on non-standard
order run __check_nonstd_order_dims__ for its context write, compute the
invalid-array message, and run __check_edge_face_coords__ (result
discarded, errors propagate; the message list is assembled before that
call in the source, which is observationally identical because an error
discards the result). -/
def check2Handle (ds : Dataset) (mesh : MeshVar) (ctx : MeshCtx) (conn : String) :
    Except PyErr (Bool × List String × MeshCtx) :=
  match _validate_nc_shape ds mesh ctx conn with
  | Except.error e => Except.error e
  | Except.ok ((valid, order), ctx1) =>
    match nonstdCtx ds mesh ctx1 order conn with
    | Except.error e => Except.error e
    | Except.ok ctx2 =>
      match __check_edge_face_coords__ ds mesh ctx2 conn with
      | Except.error e => Except.error e
      | Except.ok _ =>
        Except.ok (valid, (if valid then [] else [msgInvalidConn conn]), ctx2)

/-- The scoring loop of _check2_connectivity_attrs over the conns list:
out_of increments per present attribute, score per valid array. -/
def check2Loop (ds : Dataset) (mesh : MeshVar) :
    List String → Nat → Nat → List String → MeshCtx →
    Except PyErr (Nat × Nat × List String × MeshCtx)
  | [], score, out_of, messages, ctx => Except.ok (score, out_of, messages, ctx)
  | conn :: rest, score, out_of, messages, ctx =>
    if (ctx conn).truthy then
      match check2Handle ds mesh ctx conn with
      | Except.error e => Except.error e
      | Except.ok (valid, ms, ctx2) =>
        check2Loop ds mesh rest (score + if valid then 1 else 0) (out_of + 1)
          (messages ++ ms) ctx2
    else
      check2Loop ds mesh rest score out_of messages ctx

/-- _check2_connectivity_attrs: connectivity attributes stage. -/
def _check2_connectivity_attrs (ds : Dataset) (mesh : MeshVar) (ctx : MeshCtx) :
    Except PyErr (CheckResult × MeshCtx) :=
  if (ctx "topology_dimension").truthy = false then
    Except.ok (make_result BaseCheck.HIGH 0 1 desc2 [msgNoTopo2], ctx)
  else if mandatedAbsent ctx then
    Except.ok (make_result BaseCheck.HIGH 0 1 desc2 [], ctx)
  else
    match check2Loop ds mesh conns 0 0 [] ctx with
    | Except.error e => Except.error e
    | Except.ok (score, out_of, messages, ctx2) =>
      Except.ok (make_result BaseCheck.HIGH score out_of desc2 messages, ctx2)

def desc3 : String :=
  "Node coordinates point to aux coordinate variables representing locations of nodes"

def msgNcMissing (nc : String) : String :=
  "Node coordinate \"" ++ nc ++ "\" in mesh but not in variables"

/-- Length-mismatch message of _check3 (the source text, which formats
the topology-dimension value, is lightly reworded here to avoid a quote
character). -/
def msgNcLen (v : CtxVal) : String :=
  "The size of the mesh node coordinates does not match the topology dimension (" ++
    v.pyStr ++ ")"

def msgNoNcoords : String := "This mesh has no node coordinate variables"

def msgNoTopo3 : String := "Failed because no topology dimension exists"

/-- Per-name loop of _check3_ncoords_exist: each name is one sub-check;
unresolved names are appended to the context node_coordinates list. -/
def check3Loop (ds : Dataset) :
    List String → Nat → Nat → List String → List String →
    Nat × Nat × List String × List String
  | [], score, out_of, messages, unresolved => (score, out_of, messages, unresolved)
  | nc :: rest, score, out_of, messages, unresolved =>
    if ds.hasVar nc then
      check3Loop ds rest (score + 1) (out_of + 1) messages unresolved
    else
      check3Loop ds rest score (out_of + 1) (messages ++ [msgNcMissing nc])
        (unresolved ++ [nc])

/-- Body of _check3_ncoords_exist after the reset of the context entry
node_coordinates to the empty list. -/
def check3Body (ds : Dataset) (mesh : MeshVar) (ctx0 : MeshCtx) : CheckResult × MeshCtx :=
  if (ctx0 "topology_dimension").truthy = false then
    (make_result BaseCheck.HIGH 0 1 desc3 [msgNoTopo3], ctx0)
  else
    match mesh.getncattr "node_coordinates" with
    | Option.none => (make_result BaseCheck.HIGH 0 1 desc3 [msgNoNcoords], ctx0)
    | some s =>
      if (ctx0 "topology_dimension").eqNat (splitSpace s).length then
        match check3Loop ds (splitSpace s) 0 0 [] [] with
        | (score, out_of, messages, unresolved) =>
          (make_result BaseCheck.HIGH score out_of desc3 messages,
            ctxSet ctx0 "node_coordinates" (CtxVal.strlist unresolved))
      else
        (make_result BaseCheck.HIGH 0 1 desc3 [msgNcLen (ctx0 "topology_dimension")], ctx0)

/-- _check3_ncoords_exist: node coordinates stage.  The context entry
node_coordinates is reset to the empty list before any sub-check. -/
def _check3_ncoords_exist (ds : Dataset) (mesh : MeshVar) (ctx : MeshCtx) :
    CheckResult × MeshCtx :=
  check3Body ds mesh (ctxSet ctx "node_coordinates" (CtxVal.strlist []))

def desc4 : String := "array of faces sharing the same edge (optional)"

def msgNoEfc : String := "No edge_face_connectivity (optional)"

def msgBadShape (dim1 dim2 : Nat) (what : String) : String :=
  "Incorrect shape (" ++ toString dim1 ++ ", " ++ toString dim2 ++ ") of " ++ what ++ " array"

/-- _check4_edge_face_conn: optional edge_face_connectivity stage;
inapplicable (out_of = 0) unless nedges and nfaces were derived;
an absent attribute is caught; the variable lookup for the shape is
uncaught (KeyError), and .size on a non-Dimension context value raises. -/
def _check4_edge_face_conn (ds : Dataset) (mesh : MeshVar) (ctx : MeshCtx) :
    Except PyErr CheckResult :=
  if (ctx "nedges").truthy = false ∨ (ctx "nfaces").truthy = false then
    Except.ok (make_result BaseCheck.LOW 0 0 desc4 [])
  else
    match mesh.getncattr "edge_face_connectivity" with
    | Option.none => Except.ok (make_result BaseCheck.LOW 0 0 desc4 [msgNoEfc])
    | some efc =>
      match ds.getVar efc with
      | Option.none => Except.error PyErr.keyError
      | some v =>
        match v.shape with
        | [dim1, dim2] =>
          match ctxSize (ctx "nedges") with
          | Except.error e => Except.error e
          | Except.ok nedgesSize =>
            if dim1 ≠ nedgesSize ∨ dim2 ≠ 2 then
              Except.ok (make_result BaseCheck.LOW 0 1 desc4
                [msgBadShape dim1 dim2 "edge_face_connectivity"])
            else
              Except.ok (make_result BaseCheck.LOW 1 1 desc4 [])
        | _ => Except.error PyErr.valueError

def msgNoNfaces : String := "Number of faces (nfaces) not defined"

/-- __check_fec_ffc__: shared subroutine of stages 5 and 6.  The
ds.dimensions.get lookup of maxnumnodesperface never raises, so the
surrounding try/except of the source is dead: a None result only fails
later, at mnpf.size, once dim1 matched nfaces (Python or is lazy). -/
def __check_fec_ffc__ (ds : Dataset) (mesh : MeshVar) (ctx : MeshCtx) (cty : String) :
    Except PyErr (Bool × Nat × String) :=
  if (ctx "nfaces").truthy = false then
    Except.ok (false, 0, msgNoNfaces)
  else
    match mesh.getncattr cty with
    | Option.none => Except.ok (false, 0, "No " ++ cty ++ " (optional)")
    | some c =>
      match ds.getVar c with
      | Option.none => Except.error PyErr.keyError
      | some v =>
        match v.shape with
        | [dim1, dim2] =>
          match ctxSize (ctx "nfaces") with
          | Except.error e => Except.error e
          | Except.ok nfacesSize =>
            if dim1 ≠ nfacesSize then
              Except.ok (false, 1, msgBadShape dim1 dim2 cty)
            else
              match ds.getDim "maxnumnodesperface" with
              | Option.none => Except.error PyErr.attributeError
              | some m =>
                if dim2 ≠ m.size then
                  Except.ok (false, 1, msgBadShape dim1 dim2 cty)
                else
                  Except.ok (true, 1, "")
        | _ => Except.error PyErr.valueError

def desc5 : String := "array pointing to every index of each edge of each face (optional)"

/-- _check5_face_edge_conn: wraps __check_fec_ffc__; the returned
message is always appended, even when empty. -/
def _check5_face_edge_conn (ds : Dataset) (mesh : MeshVar) (ctx : MeshCtx) :
    Except PyErr CheckResult :=
  match __check_fec_ffc__ ds mesh ctx "face_edge_connectivity" with
  | Except.error e => Except.error e
  | Except.ok (valid, o, msg) =>
    Except.ok (make_result BaseCheck.LOW (if valid then 1 else 0) o desc5 [msg])

def desc6 : String := "array of every face sharing a face with any other face (optional)"

/-- _check6_face_face_conn: wraps __check_fec_ffc__. -/
def _check6_face_face_conn (ds : Dataset) (mesh : MeshVar) (ctx : MeshCtx) :
    Except PyErr CheckResult :=
  match __check_fec_ffc__ ds mesh ctx "face_face_connectivity" with
  | Except.error e => Except.error e
  | Except.ok (valid, o, msg) =>
    Except.ok (make_result BaseCheck.LOW (if valid then 1 else 0) o desc6 [msg])

/-- Orientation projection of a shape-resolver outcome, keeping only
the (valid, ordering) pair of a successful return. -/
def orientationOf (r : Except PyErr ((Bool × Option String) × MeshCtx)) :
    Option (Bool × Option String) :=
  r.toOption.map (fun p => p.1)

/-! Concrete datasets, meshes and contexts used by the claim theorems. -/

/-- Dataset whose edge connectivity array uses the dimension nedges of
size 2 on both axes, so the regular and the non-standard conditions hold
simultaneously. -/
def ds1x : Dataset :=
  ⟨[("enc", ⟨["nedges", "nedges"], [2, 2]⟩)], [("nedges", ⟨"nedges", 2⟩)]⟩

def mesh1x : MeshVar := ⟨[("edge_node_connectivity", "enc")]⟩

/-- Dataset with a regularly ordered edge connectivity array (nedges, 2). -/
def ds1w : Dataset :=
  ⟨[("enc2", ⟨["nedges", "two"], [4, 2]⟩)],
   [("nedges", ⟨"nedges", 4⟩), ("two", ⟨"two", 2⟩)]⟩

def mesh1w : MeshVar := ⟨[("edge_node_connectivity", "enc2")]⟩

/-- Empty dataset: every variable lookup dangles. -/
def dsEmpty : Dataset := ⟨[], []⟩

def mesh2x : MeshVar := ⟨[("edge_face_connectivity", "efc")]⟩

def ctx2x : MeshCtx :=
  ctxOf [("nedges", CtxVal.dim ⟨"nedges", 3⟩), ("nfaces", CtxVal.dim ⟨"nfaces", 4⟩)]

def mesh2w : MeshVar := ⟨[]⟩

/-- Dataset with a resolvable volume connectivity array. -/
def ds3x : Dataset :=
  ⟨[("vnc", ⟨["nvolumes", "mnnpv"], [5, 6]⟩)],
   [("nvolumes", ⟨"nvolumes", 5⟩), ("mnnpv", ⟨"mnnpv", 6⟩)]⟩

def mesh3x : MeshVar := ⟨[("volume_node_connectivity", "vnc")]⟩

def ctx3x : MeshCtx :=
  ctxOf [("topology_dimension", CtxVal.int 3), ("volume_node_connectivity", CtxVal.str "vnc")]

def ctx3wa : MeshCtx := ctxOf [("topology_dimension", CtxVal.int 1)]

/-- Dataset with valid regular edge and face connectivity arrays. -/
def ds3w : Dataset :=
  ⟨[("enc", ⟨["nedges", "two"], [4, 2]⟩), ("fnc", ⟨["nfaces", "three"], [5, 3]⟩)],
   [("nedges", ⟨"nedges", 4⟩), ("two", ⟨"two", 2⟩),
    ("nfaces", ⟨"nfaces", 5⟩), ("three", ⟨"three", 3⟩)]⟩

def mesh3w : MeshVar :=
  ⟨[("edge_node_connectivity", "enc"), ("face_node_connectivity", "fnc")]⟩

def ctx3w : MeshCtx :=
  ctxOf [("topology_dimension", CtxVal.int 2),
    ("edge_node_connectivity", CtxVal.str "enc"),
    ("face_node_connectivity", CtxVal.str "fnc")]

def ctx3w1 : MeshCtx := ctxSet ctx3w "nedges" (CtxVal.dim ⟨"nedges", 4⟩)

def ctx3w2 : MeshCtx := ctxSet ctx3w1 "nfaces" (CtxVal.dim ⟨"nfaces", 5⟩)

/-- Mesh declaring only edge_node_connectivity (the 1-D, edge-only
configuration of spec section 8). -/
def mesh3e : MeshVar := ⟨[("edge_node_connectivity", "enc")]⟩

def ctx3e : MeshCtx :=
  ctxOf [("topology_dimension", CtxVal.int 1), ("edge_node_connectivity", CtxVal.str "enc")]

def ctx3e1 : MeshCtx := ctxSet ctx3e "nedges" (CtxVal.dim ⟨"nedges", 4⟩)

/-- Dataset whose edge connectivity array names a first dimension dimA
that the Dataset does not define. -/
def ds4x : Dataset :=
  ⟨[("enc", ⟨["dimA", "dimB"], [4, 2]⟩)], [("dimB", ⟨"dimB", 2⟩)]⟩

def mesh4x : MeshVar := ⟨[("edge_node_connectivity", "enc")]⟩

/-- Dataset whose edge connectivity array resolves its first dimension
but names a second dimension dimC that the Dataset does not define. -/
def ds4y : Dataset :=
  ⟨[("enc", ⟨["dimB", "dimC"], [2, 2]⟩)], [("dimB", ⟨"dimB", 2⟩)]⟩

def ctx5w : MeshCtx := ctxOf [("topology_dimension", CtxVal.int 2)]

def ds6w : Dataset :=
  ⟨[("lon", ⟨["nnodes"], [10]⟩), ("lat", ⟨["nnodes"], [10]⟩)],
   [("nnodes", ⟨"nnodes", 10⟩)]⟩

def mesh6w : MeshVar := ⟨[("node_coordinates", "lon lat")]⟩

def ctx6w : MeshCtx := ctxOf [("topology_dimension", CtxVal.int 2)]

/-- Dataset declaring nfaces but no maxnumnodesperface dimension, with a
face_edge_connectivity array whose first axis matches nfaces. -/
def ds7x : Dataset :=
  ⟨[("fec", ⟨["nfaces", "x"], [4, 3]⟩)], [("nfaces", ⟨"nfaces", 4⟩)]⟩

def mesh7x : MeshVar := ⟨[("face_edge_connectivity", "fec")]⟩

def ctx7x : MeshCtx := ctxOf [("nfaces", CtxVal.dim ⟨"nfaces", 4⟩)]

def ctx8w : MeshCtx := ctxOf [("topology_dimension", CtxVal.int 5)]

def r8w : CheckResult := make_result BaseCheck.HIGH 0 0 desc2 []

/-- Dataset with a non-standard (2, nedges) edge connectivity array. -/
def ds9x : Dataset :=
  ⟨[("enc", ⟨["two", "nedges"], [2, 4]⟩)],
   [("two", ⟨"two", 2⟩), ("nedges", ⟨"nedges", 4⟩)]⟩

def mesh9x : MeshVar := ⟨[("edge_node_connectivity", "enc")]⟩

/-- Same mesh but with an edge_dimension attribute naming an undefined
dimension. -/
def mesh9y : MeshVar :=
  ⟨[("edge_node_connectivity", "enc"), ("edge_dimension", "foo")]⟩

/-- Same mesh but with a resolvable edge_dimension attribute. -/
def mesh9z : MeshVar :=
  ⟨[("edge_node_connectivity", "enc"), ("edge_dimension", "nedges")]⟩

def ctx9x : MeshCtx :=
  ctxOf [("topology_dimension", CtxVal.int 1), ("edge_node_connectivity", CtxVal.str "enc")]

def ds10w : Dataset := ⟨[("lon", ⟨["nnodes"], [10]⟩)], [("nnodes", ⟨"nnodes", 10⟩)]⟩

def mesh10w : MeshVar := ⟨[("node_coordinates", "lon latx")]⟩

def ctx10w : MeshCtx := ctxOf [("topology_dimension", CtxVal.int 2)]

/-! General lemmas about the embedding. -/

theorem ctxSet_ne (c : MeshCtx) (k : String) (v : CtxVal) (kk : String) (h : kk ≠ k) :
    ctxSet c k v kk = c kk := by
  simp [ctxSet, h]

theorem check3Loop_spec (ds : Dataset) (l : List String) :
    ∀ score out_of messages unresolved,
    check3Loop ds l score out_of messages unresolved =
      (score + (l.filter (fun n => ds.hasVar n)).length,
       out_of + l.length,
       messages ++ (l.filter (fun n => !ds.hasVar n)).map msgNcMissing,
       unresolved ++ l.filter (fun n => !ds.hasVar n)) := by
  induction l with
  | nil => intro score out_of messages unresolved; simp [check3Loop]
  | cons nc rest ih =>
    intro score out_of messages unresolved
    by_cases h : ds.hasVar nc
    · simp [check3Loop, h, ih, List.filter]
      omega
    · simp [check3Loop, h, ih, List.filter]
      omega

theorem check2Loop_bound (ds : Dataset) (mesh : MeshVar) (l : List String) :
    ∀ score out_of messages ctx score2 out2 msgs2 ctx2,
    check2Loop ds mesh l score out_of messages ctx =
      Except.ok (score2, out2, msgs2, ctx2) →
    score2 + out_of ≤ score + out2 := by
  induction l with
  | nil =>
    intro score out_of messages ctx score2 out2 msgs2 ctx2 h
    simp [check2Loop] at h
    omega
  | cons conn rest ih =>
    intro score out_of messages ctx score2 out2 msgs2 ctx2 h
    simp only [check2Loop] at h
    split at h
    · cases hh : check2Handle ds mesh ctx conn with
      | error e => rw [hh] at h; cases h
      | ok val =>
        rw [hh] at h
        obtain ⟨valid, ms, c2⟩ := val
        have := ih _ _ _ _ _ _ _ _ h
        by_cases hv : valid <;> simp [hv] at this <;> omega
    · have := ih _ _ _ _ _ _ _ _ h
      omega

theorem fec_valid_one (ds : Dataset) (mesh : MeshVar) (ctx : MeshCtx) (cty : String)
    (o : Nat) (m : String)
    (h : __check_fec_ffc__ ds mesh ctx cty = Except.ok (true, o, m)) : o = 1 := by
  unfold __check_fec_ffc__ at h
  repeat' split at h
  all_goals simp_all

theorem validate_ctx_cases (ds : Dataset) (mesh : MeshVar) (ctx : MeshCtx) (cty : String)
    (vo : Bool × Option String) (c2 : MeshCtx)
    (h : _validate_nc_shape ds mesh ctx cty = Except.ok (vo, c2)) :
    c2 = ctx ∨ (∃ d, c2 = ctxSet ctx "nedges" (CtxVal.dim d)) ∨
      (∃ d, c2 = ctxSet ctx "nfaces" (CtxVal.dim d)) := by
  unfold _validate_nc_shape validateFinish at h
  repeat' split at h
  all_goals simp_all
  all_goals first
    | exact Or.inl rfl
    | (rw [← h.2]; exact Or.inr (Or.inl ⟨_, rfl⟩))
    | (rw [← h.2]; exact Or.inr (Or.inr ⟨_, rfl⟩))

theorem efd_preserve (ds : Dataset) (mesh : MeshVar) (ctx : MeshCtx) (dim_var : String)
    (kk : String) (hk : kk ≠ dim_var) :
    (__check_edge_face_dim__ ds mesh ctx dim_var).2 kk = ctx kk := by
  unfold __check_edge_face_dim__
  split
  · rfl
  · split
    · rfl
    · exact ctxSet_ne _ _ _ _ hk

theorem nonstd_preserve (ds : Dataset) (mesh : MeshVar) (ctx : MeshCtx) (cty : String)
    (r : CheckResult) (c2 : MeshCtx)
    (h : __check_nonstd_order_dims__ ds mesh ctx cty = Except.ok (r, c2))
    (kk : String) (h3 : kk ≠ "edge_dimension") (h4 : kk ≠ "face_dimension") :
    c2 kk = ctx kk := by
  have hdv : ∀ dv, dim_map cty = some dv → kk ≠ dv := by
    intro dv hdm
    unfold dim_map at hdm
    split at hdm
    · cases hdm; exact h3
    · split at hdm
      · cases hdm; exact h4
      · cases hdm
  unfold __check_nonstd_order_dims__ at h
  split at h
  · cases h
  · rename_i dim_var hdm
    have hk := hdv dim_var hdm
    have hefd := efd_preserve ds mesh ctx dim_var kk hk
    split at h
    · rename_i heq
      simp only [Except.ok.injEq, Prod.mk.injEq] at h
      obtain ⟨hr, hc⟩ := h
      subst hc
      rw [heq] at hefd
      exact hefd
    · rename_i heq
      simp only [Except.ok.injEq, Prod.mk.injEq] at h
      obtain ⟨hr, hc⟩ := h
      subst hc
      rw [heq] at hefd
      exact hefd
    · rename_i heq
      simp only [Except.ok.injEq, Prod.mk.injEq] at h
      obtain ⟨hr, hc⟩ := h
      subst hc
      rw [heq] at hefd
      exact hefd

theorem nonstdCtx_preserve (ds : Dataset) (mesh : MeshVar) (ctx : MeshCtx)
    (order : Option String) (conn : String) (c2 : MeshCtx)
    (h : nonstdCtx ds mesh ctx order conn = Except.ok c2)
    (kk : String) (h3 : kk ≠ "edge_dimension") (h4 : kk ≠ "face_dimension") :
    c2 kk = ctx kk := by
  unfold nonstdCtx at h
  split at h
  · cases hn : __check_nonstd_order_dims__ ds mesh ctx conn with
    | error e => rw [hn] at h; cases h
    | ok q =>
      rw [hn] at h
      simp only [Except.map, Except.ok.injEq] at h
      subst h
      exact nonstd_preserve ds mesh ctx conn q.1 q.2 (by rw [hn]) kk h3 h4
  · cases h
    rfl

theorem check2Handle_preserve (ds : Dataset) (mesh : MeshVar) (ctx : MeshCtx)
    (conn : String) (valid : Bool) (ms : List String) (c2 : MeshCtx)
    (h : check2Handle ds mesh ctx conn = Except.ok (valid, ms, c2))
    (kk : String) (h1 : kk ≠ "nedges") (h2 : kk ≠ "nfaces")
    (h3 : kk ≠ "edge_dimension") (h4 : kk ≠ "face_dimension") :
    c2 kk = ctx kk := by
  unfold check2Handle at h
  split at h
  · cases h
  · rename_i p valid1 order ctx1 heqv
    have hp1 : ctx1 kk = ctx kk := by
      rcases validate_ctx_cases ds mesh ctx conn _ _ heqv with h' | ⟨d, h'⟩ | ⟨d, h'⟩ <;>
        subst h'
      · rfl
      · exact ctxSet_ne _ _ _ _ h1
      · exact ctxSet_ne _ _ _ _ h2
    split at h
    · cases h
    · rename_i ctx2 heqn
      have hp2 : ctx2 kk = ctx1 kk := nonstdCtx_preserve ds mesh ctx1 order conn ctx2 heqn kk h3 h4
      split at h
      · cases h
      · simp only [Except.ok.injEq, Prod.mk.injEq] at h
        obtain ⟨hv, hm, hc⟩ := h
        subst hc
        exact hp2.trans hp1

/-! Claim theorems. -/

/-- C5: for every mesh context, the topology-dimension stage returns
out_of = 1, and score = 1 exactly when the topology_dimension value is
the integer 1, 2 or 3; for any other value, including an absent
attribute, it returns score = 0 and the messages contain the invalid
message naming the offending value. -/
theorem C5_theorem (ctx : MeshCtx) :
    (_check1_topology_dim ctx).out_of = 1 ∧
    ((_check1_topology_dim ctx).score = 1 ↔
      (ctx "topology_dimension" = CtxVal.int 1 ∨ ctx "topology_dimension" = CtxVal.int 2 ∨
        ctx "topology_dimension" = CtxVal.int 3)) ∧
    (¬(ctx "topology_dimension" = CtxVal.int 1 ∨ ctx "topology_dimension" = CtxVal.int 2 ∨
        ctx "topology_dimension" = CtxVal.int 3) →
      (_check1_topology_dim ctx).score = 0 ∧
        msgTopoInvalid (ctx "topology_dimension") ∈ (_check1_topology_dim ctx).messages) := by
  by_cases h : ctx "topology_dimension" = CtxVal.int 1 ∨
      ctx "topology_dimension" = CtxVal.int 2 ∨ ctx "topology_dimension" = CtxVal.int 3
  · simp [_check1_topology_dim, make_result, h]
  · simp [_check1_topology_dim, make_result, h]

/-- C5 witness: on the all-absent context the stage scores 0 of 1 and
reports the invalid value None. -/
theorem C5_witness :
    (_check1_topology_dim ctxEmpty).out_of = 1 ∧
    (_check1_topology_dim ctxEmpty).score = 0 ∧
    msgTopoInvalid (ctxEmpty "topology_dimension") ∈ (_check1_topology_dim ctxEmpty).messages := by
  have h := C5_theorem ctxEmpty
  have h3 := h.2.2 (by decide)
  exact ⟨h.1, h3.1, h3.2⟩

/-- C4: the claim says a resolved dimension name that is absent from the
Dataset dimension set makes the shape resolver return an invalid outcome
without raising; on ds4x, whose connectivity array names the undefined
first dimension dimA, the code instead raises KeyError at the
ds.dimensions[name] lookup of source line 533, and on ds4y, whose array
names an undefined second dimension dimC, at the lookup of line 534 —
in both cases before the membership test of line 537 that implements
the claimed behaviour and is dead code.  The absent-attribute half of
the claim does hold (last conjunct). -/
theorem C4_theorem :
    _validate_nc_shape ds4x mesh4x ctxEmpty "edge_node_connectivity" =
      Except.error PyErr.keyError ∧
    _validate_nc_shape ds4y mesh4x ctxEmpty "edge_node_connectivity" =
      Except.error PyErr.keyError ∧
    _validate_nc_shape ds4x mesh2w ctxEmpty "edge_node_connectivity" =
      Except.ok ((false, Option.none), ctxEmpty) :=
  ⟨rfl, rfl, rfl⟩

/-- C7: the claim (and the source docstring of _check5_face_edge_conn)
says the stage is skipped when the Dataset declares no maxnumnodesperface
dimension, but on ds7x (nfaces derived, attribute present, first axis
matching nfaces) the stage raises AttributeError at mnpf.size because
ds.dimensions.get returned None and the surrounding try/except never
fires. -/
theorem C7_theorem :
    _check5_face_edge_conn ds7x mesh7x ctx7x = Except.error PyErr.attributeError :=
  rfl

/-- C9: the ordering-dimension resolver does distinguish the two failure
modes (attribute missing vs dangling dimension reference) and writes the
resolved Dimension on success, but the stage that calls it discards the
CheckResult carrying the message (source line 110), so on the
non-standard mesh9x with edge_dimension missing the connectivity stage
returns messages = [] and the failure message never reaches the output
of the run. -/
theorem C9_theorem :
    (__check_edge_face_dim__ ds9x mesh9x ctx9x "edge_dimension").1 =
      (false, some (msgDimMissing "edge_dimension")) ∧
    (__check_edge_face_dim__ ds9x mesh9y ctx9x "edge_dimension").1 =
      (false, some msgDimDangling) ∧
    (__check_edge_face_dim__ ds9x mesh9z ctx9x "edge_dimension").2 "edge_dimension" =
      CtxVal.dim ⟨"nedges", 4⟩ ∧
    Except.map Prod.fst (_check2_connectivity_attrs ds9x mesh9x ctx9x) =
      Except.ok (make_result BaseCheck.HIGH 1 1 desc2 []) :=
  ⟨rfl, rfl, rfl, rfl⟩

/-- C2 counterexample: the claim says no exception propagates out of a
stage for any Dataset contents, but when the edge_face_connectivity
attribute names a variable absent from the Dataset the lookup
ds.variables[efc] of stage 4 raises KeyError uncaught. -/
theorem C2_counterexample :
    _check4_edge_face_conn dsEmpty mesh2x ctx2x = Except.error PyErr.keyError :=
  rfl

/-- C3 counterexample: the claim says out_of is incremented for each
present connectivity attribute, but with a valid topology dimension 3
and a present, resolvable volume_node_connectivity the stage raises
NotImplementedError instead of returning a CheckResult. -/
theorem C3_counterexample :
    _check2_connectivity_attrs ds3x mesh3x ctx3x = Except.error PyErr.notImplementedError :=
  rfl

/-- C1 counterexample: on ds1x the connectivity array has dimensions
(nedges, nedges) with size 2, so the non-standard condition of the claim
(first dimension size equals the fixed count 2 and second dimension name
equals nedges) holds, yet the resolver returns the regular orientation,
because the regular test of the source runs first; the claimed
iff-characterisation of the nonstd outcome is therefore false here. -/
theorem C1_counterexample :
    orientationOf (_validate_nc_shape ds1x mesh1x ctxEmpty "edge_node_connectivity") =
      some (true, some "regular") ∧
    orientationOf (_validate_nc_shape ds1x mesh1x ctxEmpty "edge_node_connectivity") ≠
      some (true, some "nonstd") ∧
    (ds1x.getVar "enc").map NcVar.dims = some ["nedges", "nedges"] ∧
    (ds1x.getDim "nedges").map Dimension.size = some 2 := by
  refine ⟨rfl, ?_, rfl, rfl⟩
  decide

/-- C2 (amended): lookups of attributes on the mesh variable are caught
in every stage — the shape resolver returns (invalid, none) for an
absent connectivity attribute, stage 3 turns an absent node_coordinates
into a message with a single failing sub-check, and stages 4-6 turn an
absent optional attribute into an inapplicable result with a message —
but a lookup that references a missing variable in the Dataset view
raises and propagates out of the stage (see the counterexample). -/
theorem C2_theorem :
    (∀ (ds : Dataset) (mesh : MeshVar) (ctx : MeshCtx) (cty : String), cty ∈ conns →
      mesh.getncattr cty = Option.none →
      _validate_nc_shape ds mesh ctx cty = Except.ok ((false, Option.none), ctx)) ∧
    (∀ (ds : Dataset) (mesh : MeshVar) (ctx : MeshCtx),
      (ctx "topology_dimension").truthy = true →
      mesh.getncattr "node_coordinates" = Option.none →
      (_check3_ncoords_exist ds mesh ctx).1 =
        make_result BaseCheck.HIGH 0 1 desc3 [msgNoNcoords]) ∧
    (∀ (ds : Dataset) (mesh : MeshVar) (ctx : MeshCtx),
      (ctx "nedges").truthy = true → (ctx "nfaces").truthy = true →
      mesh.getncattr "edge_face_connectivity" = Option.none →
      _check4_edge_face_conn ds mesh ctx =
        Except.ok (make_result BaseCheck.LOW 0 0 desc4 [msgNoEfc])) ∧
    (∀ (ds : Dataset) (mesh : MeshVar) (ctx : MeshCtx),
      (ctx "nfaces").truthy = true →
      mesh.getncattr "face_edge_connectivity" = Option.none →
      _check5_face_edge_conn ds mesh ctx =
        Except.ok (make_result BaseCheck.LOW 0 0 desc5 ["No face_edge_connectivity (optional)"])) ∧
    (∀ (ds : Dataset) (mesh : MeshVar) (ctx : MeshCtx),
      (ctx "nfaces").truthy = true →
      mesh.getncattr "face_face_connectivity" = Option.none →
      _check6_face_face_conn ds mesh ctx =
        Except.ok (make_result BaseCheck.LOW 0 0 desc6 ["No face_face_connectivity (optional)"])) := by
  refine ⟨?_, ?_, ?_, ?_, ?_⟩
  · intro ds mesh ctx cty hc hn
    simp [_validate_nc_shape, hc, hn]
  · intro ds mesh ctx ht hn
    have hts : (ctxSet ctx "node_coordinates" (CtxVal.strlist []) "topology_dimension").truthy
        = true := by
      rw [ctxSet_ne ctx "node_coordinates" (CtxVal.strlist []) "topology_dimension" (by decide)]
      exact ht
    simp [_check3_ncoords_exist, check3Body, hts, hn]
  · intro ds mesh ctx h1 h2 h3
    simp [_check4_edge_face_conn, h1, h2, h3]
  · intro ds mesh ctx h1 h2
    simp [_check5_face_edge_conn, __check_fec_ffc__, h1, h2]
  · intro ds mesh ctx h1 h2
    simp [_check6_face_face_conn, __check_fec_ffc__, h1, h2]

/-- C2 witness: with nedges and nfaces derived and no
edge_face_connectivity attribute, stage 4 returns the inapplicable
result with the optional message. -/
theorem C2_witness :
    _check4_edge_face_conn dsEmpty mesh2w ctx2x =
      Except.ok (make_result BaseCheck.LOW 0 0 desc4 [msgNoEfc]) :=
  C2_theorem.2.2.1 dsEmpty mesh2w ctx2x (by decide) (by decide) (by decide)

theorem check1_out_of_one (ctx : MeshCtx) : (_check1_topology_dim ctx).out_of = 1 := by
  by_cases h : ctx "topology_dimension" = CtxVal.int 1 ∨
      ctx "topology_dimension" = CtxVal.int 2 ∨ ctx "topology_dimension" = CtxVal.int 3 <;>
    simp [_check1_topology_dim, make_result, h]

theorem check3Body_score_le (ds : Dataset) (mesh : MeshVar) (ctx0 : MeshCtx) :
    (check3Body ds mesh ctx0).1.score ≤ (check3Body ds mesh ctx0).1.out_of := by
  unfold check3Body
  split
  · simp [make_result]
  · split
    · simp [make_result]
    · split
      · split
        rename_i score out_of messages unresolved heq
        rw [check3Loop_spec] at heq
        simp only [Prod.mk.injEq] at heq
        obtain ⟨h1, h2, h3, h4⟩ := heq
        simp only [make_result]
        subst h1 h2
        simpa using List.length_filter_le _ _
      · simp [make_result]

theorem check2_short_out_of (ds : Dataset) (mesh : MeshVar) (ctx : MeshCtx)
    (r : CheckResult) (c2 : MeshCtx)
    (h : _check2_connectivity_attrs ds mesh ctx = Except.ok (r, c2))
    (ho : r.out_of = 0) : r.score = 0 := by
  unfold _check2_connectivity_attrs at h
  split at h
  · simp only [Except.ok.injEq, Prod.mk.injEq] at h
    obtain ⟨hr, _⟩ := h
    subst hr
    simp [make_result] at ho
  · split at h
    · simp only [Except.ok.injEq, Prod.mk.injEq] at h
      obtain ⟨hr, _⟩ := h
      subst hr
      simp [make_result] at ho
    · split at h
      · cases h
      · rename_i score2 out2 msgs2 ctx2 heq
        cases h
        simp only [make_result] at ho ⊢
        have := check2Loop_bound ds mesh conns 0 0 [] ctx score2 out2 msgs2 c2 heq
        omega

/-- C8: for all meshes and all six check stages, a returned CheckResult
with out_of = 0 also has score = 0 (an inapplicable stage is not a pass
and not a failure). -/
theorem C8_theorem :
    (∀ ctx : MeshCtx, (_check1_topology_dim ctx).out_of = 0 →
      (_check1_topology_dim ctx).score = 0) ∧
    (∀ (ds : Dataset) (mesh : MeshVar) (ctx : MeshCtx) (r : CheckResult) (c2 : MeshCtx),
      _check2_connectivity_attrs ds mesh ctx = Except.ok (r, c2) → r.out_of = 0 →
      r.score = 0) ∧
    (∀ (ds : Dataset) (mesh : MeshVar) (ctx : MeshCtx),
      (_check3_ncoords_exist ds mesh ctx).1.out_of = 0 →
      (_check3_ncoords_exist ds mesh ctx).1.score = 0) ∧
    (∀ (ds : Dataset) (mesh : MeshVar) (ctx : MeshCtx) (r : CheckResult),
      _check4_edge_face_conn ds mesh ctx = Except.ok r → r.out_of = 0 → r.score = 0) ∧
    (∀ (ds : Dataset) (mesh : MeshVar) (ctx : MeshCtx) (r : CheckResult),
      _check5_face_edge_conn ds mesh ctx = Except.ok r → r.out_of = 0 → r.score = 0) ∧
    (∀ (ds : Dataset) (mesh : MeshVar) (ctx : MeshCtx) (r : CheckResult),
      _check6_face_face_conn ds mesh ctx = Except.ok r → r.out_of = 0 → r.score = 0) := by
  refine ⟨?_, check2_short_out_of, ?_, ?_, ?_, ?_⟩
  · intro ctx h
    rw [check1_out_of_one] at h
    exact absurd h one_ne_zero
  · intro ds mesh ctx h
    have := check3Body_score_le ds mesh (ctxSet ctx "node_coordinates" (CtxVal.strlist []))
    unfold _check3_ncoords_exist at h ⊢
    omega
  · intro ds mesh ctx r h ho
    unfold _check4_edge_face_conn at h
    repeat' split at h
    all_goals cases h
    all_goals simp_all [make_result]
  · intro ds mesh ctx r h ho
    unfold _check5_face_edge_conn at h
    split at h
    · cases h
    · rename_i valid o msg heq
      cases h
      simp only [make_result] at ho ⊢
      cases valid with
      | false => simp
      | true =>
        have := fec_valid_one ds mesh ctx "face_edge_connectivity" o msg heq
        omega
  · intro ds mesh ctx r h ho
    unfold _check6_face_face_conn at h
    split at h
    · cases h
    · rename_i valid o msg heq
      cases h
      simp only [make_result] at ho ⊢
      cases valid with
      | false => simp
      | true =>
        have := fec_valid_one ds mesh ctx "face_face_connectivity" o msg heq
        omega

/-- C8 witness: with topology_dimension 5 the connectivity stage is
inapplicable (out_of = 0) and its score is 0. -/
theorem C8_witness :
    _check2_connectivity_attrs dsEmpty mesh2w ctx8w = Except.ok (r8w, ctx8w) ∧
    r8w.score = 0 :=
  ⟨rfl, C8_theorem.2.1 dsEmpty mesh2w ctx8w r8w ctx8w rfl rfl⟩

theorem ctxSet_self (c : MeshCtx) (k : String) (v : CtxVal) : ctxSet c k v k = v := by
  simp [ctxSet]

theorem splitChar_ne_nil (l : List Char) : splitChar l ≠ [] := by
  cases l with
  | nil => simp [splitChar]
  | cons c cs =>
    simp only [splitChar]
    split
    · simp
    · split <;> simp

theorem splitSpace_length_pos (s : String) : 0 < (splitSpace s).length := by
  simp only [splitSpace, List.length_map]
  exact List.length_pos.mpr (splitChar_ne_nil s.data)

/-- C6: for every mesh whose topology dimension resolved to a nonzero
integer d, the node-coordinates stage splits the attribute on spaces;
with exactly d names each name is one sub-check that passes iff it is a
Dataset variable; a length mismatch is one failing sub-check; a missing
attribute is a distinct single-sub-check failure path. -/
theorem C6_theorem (ds : Dataset) (mesh : MeshVar) (ctx : MeshCtx) (d : Int) (s : String)
    (htopo : ctx "topology_dimension" = CtxVal.int d) (hd : d ≠ 0) :
    ((mesh.getncattr "node_coordinates" = some s ∧ ((splitSpace s).length : Int) = d) →
      (_check3_ncoords_exist ds mesh ctx).1.out_of = (splitSpace s).length ∧
      (_check3_ncoords_exist ds mesh ctx).1.score =
        ((splitSpace s).filter (fun n => ds.hasVar n)).length) ∧
    ((mesh.getncattr "node_coordinates" = some s ∧ ((splitSpace s).length : Int) ≠ d) →
      (_check3_ncoords_exist ds mesh ctx).1.out_of = 1 ∧
      (_check3_ncoords_exist ds mesh ctx).1.score = 0 ∧
      (_check3_ncoords_exist ds mesh ctx).1.messages = [msgNcLen (CtxVal.int d)]) ∧
    (mesh.getncattr "node_coordinates" = Option.none →
      (_check3_ncoords_exist ds mesh ctx).1.out_of = 1 ∧
      (_check3_ncoords_exist ds mesh ctx).1.score = 0 ∧
      (_check3_ncoords_exist ds mesh ctx).1.messages = [msgNoNcoords]) := by
  have h0 : ctxSet ctx "node_coordinates" (CtxVal.strlist []) "topology_dimension" =
      CtxVal.int d := by
    rw [ctxSet_ne ctx "node_coordinates" (CtxVal.strlist []) "topology_dimension" (by decide)]
    exact htopo
  refine ⟨?_, ?_, ?_⟩
  · rintro ⟨hattr, hlen⟩
    have hlen2 : d == ((splitSpace s).length : Int) := by
      simp [← hlen]
    simp [_check3_ncoords_exist, check3Body, h0, hattr, CtxVal.truthy, hd, CtxVal.eqNat,
      hlen2, check3Loop_spec, make_result]
  · rintro ⟨hattr, hlen⟩
    have hlen2 : (d == ((splitSpace s).length : Int)) = false := by
      simp
      omega
    simp [_check3_ncoords_exist, check3Body, h0, hattr, CtxVal.truthy, hd, CtxVal.eqNat,
      hlen2, make_result, msgNcLen]
  · intro hattr
    simp [_check3_ncoords_exist, check3Body, h0, hattr, CtxVal.truthy, hd, make_result]

/-- C6 witness: node_coordinates "lon lat" with topology dimension 2 and
both names present as Dataset variables scores 2 of 2. -/
theorem C6_witness :
    (_check3_ncoords_exist ds6w mesh6w ctx6w).1.out_of = 2 ∧
    (_check3_ncoords_exist ds6w mesh6w ctx6w).1.score = 2 := by
  have h := (C6_theorem ds6w mesh6w ctx6w 2 "lon lat" rfl (by decide)).1 ⟨rfl, by decide⟩
  exact ⟨h.1.trans (by decide), h.2.trans (by decide)⟩

/-- C10: the node-coordinates stage always resets the context entry
node_coordinates to the empty list, and afterwards the entry holds
exactly the names that failed to resolve as Dataset variables; on every
non-scoring path, including a full pass, the raw attribute value is not
retained. -/
theorem C10_theorem (ds : Dataset) (mesh : MeshVar) (ctx : MeshCtx) :
    ((ctx "topology_dimension").truthy = false →
      (_check3_ncoords_exist ds mesh ctx).2 "node_coordinates" = CtxVal.strlist []) ∧
    (mesh.getncattr "node_coordinates" = Option.none →
      (_check3_ncoords_exist ds mesh ctx).2 "node_coordinates" = CtxVal.strlist []) ∧
    (∀ sv : String, mesh.getncattr "node_coordinates" = some sv →
      (ctx "topology_dimension").eqNat (splitSpace sv).length = false →
      (_check3_ncoords_exist ds mesh ctx).2 "node_coordinates" = CtxVal.strlist []) ∧
    (∀ sv : String, mesh.getncattr "node_coordinates" = some sv →
      (ctx "topology_dimension").eqNat (splitSpace sv).length = true →
      (_check3_ncoords_exist ds mesh ctx).2 "node_coordinates" =
        CtxVal.strlist ((splitSpace sv).filter (fun n => !ds.hasVar n))) := by
  have h0 : ctxSet ctx "node_coordinates" (CtxVal.strlist []) "topology_dimension" =
      ctx "topology_dimension" :=
    ctxSet_ne ctx "node_coordinates" (CtxVal.strlist []) "topology_dimension" (by decide)
  refine ⟨?_, ?_, ?_, ?_⟩
  · intro ht
    simp [_check3_ncoords_exist, check3Body, h0, ht, ctxSet_self]
  · intro hattr
    by_cases ht : (ctx "topology_dimension").truthy = false <;>
      simp [_check3_ncoords_exist, check3Body, h0, ht, hattr, ctxSet_self]
  · intro sv hattr heq
    by_cases ht : (ctx "topology_dimension").truthy = false <;>
      simp [_check3_ncoords_exist, check3Body, h0, ht, hattr, heq, ctxSet_self]
  · intro sv hattr heq
    have hd : ∃ m : Int, ctx "topology_dimension" = CtxVal.int m ∧
        m = ((splitSpace sv).length : Int) := by
      cases hv : ctx "topology_dimension" <;> rw [hv] at heq <;>
        simp [CtxVal.eqNat] at heq
      exact ⟨_, rfl, heq⟩
    obtain ⟨m, hm, hmv⟩ := hd
    have hpos := splitSpace_length_pos sv
    have ht : (ctx "topology_dimension").truthy = true := by
      rw [hm]
      simp [CtxVal.truthy]
      omega
    simp [_check3_ncoords_exist, check3Body, h0, ht, hattr, heq, check3Loop_spec,
      ctxSet_self]

/-- C10 witness: with node_coordinates "lon latx" and only lon defined,
after the stage the context entry holds exactly the unresolved name. -/
theorem C10_witness :
    (_check3_ncoords_exist ds10w mesh10w ctx10w).2 "node_coordinates" =
      CtxVal.strlist ["latx"] := by
  have h := (C10_theorem ds10w mesh10w ctx10w).2.2.2 "lon latx" rfl (by decide)
  exact h.trans (by decide)

/-- C3 (amended): with a valid topology dimension whose mandated
connectivity attribute is absent the stage short-circuits with score 0
out of 1; otherwise, for any combination of present edge and face
connectivity attributes each of which resolves without an exception
(a present, resolvable volume_node_connectivity instead raises
NotImplementedError, see the counterexample), out_of is incremented
once per present attribute and score once per attribute whose array
the resolver deems valid. -/
theorem C3_theorem :
    (∀ (ds : Dataset) (mesh : MeshVar) (ctx : MeshCtx),
      ((ctx "topology_dimension" = CtxVal.int 1 ∧
          (ctx "edge_node_connectivity").truthy = false) ∨
       (ctx "topology_dimension" = CtxVal.int 2 ∧
          (ctx "face_node_connectivity").truthy = false) ∨
       (ctx "topology_dimension" = CtxVal.int 3 ∧
          (ctx "volume_node_connectivity").truthy = false)) →
      _check2_connectivity_attrs ds mesh ctx =
        Except.ok (make_result BaseCheck.HIGH 0 1 desc2 [], ctx)) ∧
    (∀ (ds : Dataset) (mesh : MeshVar) (ctx ctx1 ctx2 : MeshCtx) (te tf ve vf : Bool)
        (mse msf : List String),
      (ctx "topology_dimension").truthy = true →
      mandatedAbsent ctx = false →
      (ctx "edge_node_connectivity").truthy = te →
      (ctx "face_node_connectivity").truthy = tf →
      (ctx "volume_node_connectivity").truthy = false →
      (te = true → check2Handle ds mesh ctx "edge_node_connectivity" =
        Except.ok (ve, mse, ctx1)) →
      (te = false → ctx1 = ctx ∧ ve = false ∧ mse = []) →
      (tf = true → check2Handle ds mesh ctx1 "face_node_connectivity" =
        Except.ok (vf, msf, ctx2)) →
      (tf = false → ctx2 = ctx1 ∧ vf = false ∧ msf = []) →
      _check2_connectivity_attrs ds mesh ctx =
        Except.ok (make_result BaseCheck.HIGH
          ((if ve then 1 else 0) + (if vf then 1 else 0))
          ((if te then 1 else 0) + (if tf then 1 else 0))
          desc2 (mse ++ msf), ctx2)) := by
  constructor
  · intro ds mesh ctx hmand
    have ht : (ctx "topology_dimension").truthy = true := by
      rcases hmand with ⟨h1, _⟩ | ⟨h1, _⟩ | ⟨h1, _⟩ <;> rw [h1] <;> decide
    have hma : mandatedAbsent ctx = true := by
      rcases hmand with ⟨h1, h2⟩ | ⟨h1, h2⟩ | ⟨h1, h2⟩ <;>
        simp [mandatedAbsent, conns, h1, h2]
    unfold _check2_connectivity_attrs
    simp [ht, hma]
  · intro ds mesh ctx ctx1 ctx2 te tf ve vf mse msf ht hma hedge hface hvol he he' hf hf'
    cases te with
    | false =>
      obtain ⟨hc1, hv1, hm1⟩ := he' rfl
      cases tf with
      | false =>
        obtain ⟨hc2, hv2, hm2⟩ := hf' rfl
        have hloop : check2Loop ds mesh conns 0 0 [] ctx =
            Except.ok (0, 0, [], ctx) := by
          simp only [conns, check2Loop, hedge, hface, hvol, Bool.false_eq_true, if_false]
        unfold _check2_connectivity_attrs
        rw [hv1, hv2, hm1, hm2, hc2, hc1]
        simp only [ht, hma, hloop, Bool.true_eq_false, Bool.false_eq_true, if_false,
          ite_false]
        simp [make_result]
      | true =>
        have hf2 := hf rfl
        rw [hc1] at hf2
        have hvol2 : (ctx2 "volume_node_connectivity").truthy = false := by
          rw [check2Handle_preserve ds mesh ctx "face_node_connectivity" vf msf ctx2 hf2
            "volume_node_connectivity" (by decide) (by decide) (by decide) (by decide)]
          exact hvol
        have hloop : check2Loop ds mesh conns 0 0 [] ctx =
            Except.ok (0 + (if vf then 1 else 0), 0 + 1, [] ++ msf, ctx2) := by
          simp only [conns, check2Loop, hedge, hface, hvol2, hf2, if_true, ite_true,
            Bool.false_eq_true, if_false]
        unfold _check2_connectivity_attrs
        rw [hv1, hm1]
        simp only [ht, hma, hloop, Bool.true_eq_false, Bool.false_eq_true, if_false,
          ite_false]
        simp [make_result]
    | true =>
      have he2 := he rfl
      have hface1 : (ctx1 "face_node_connectivity").truthy = tf := by
        rw [check2Handle_preserve ds mesh ctx "edge_node_connectivity" ve mse ctx1 he2
          "face_node_connectivity" (by decide) (by decide) (by decide) (by decide)]
        exact hface
      have hvol1 : (ctx1 "volume_node_connectivity").truthy = false := by
        rw [check2Handle_preserve ds mesh ctx "edge_node_connectivity" ve mse ctx1 he2
          "volume_node_connectivity" (by decide) (by decide) (by decide) (by decide)]
        exact hvol
      cases tf with
      | false =>
        obtain ⟨hc2, hv2, hm2⟩ := hf' rfl
        have hloop : check2Loop ds mesh conns 0 0 [] ctx =
            Except.ok (0 + (if ve then 1 else 0), 0 + 1, [] ++ mse, ctx1) := by
          simp only [conns, check2Loop, hedge, hface1, hvol1, he2, if_true, ite_true,
            Bool.false_eq_true, if_false]
        unfold _check2_connectivity_attrs
        rw [hv2, hm2, hc2]
        simp only [ht, hma, hloop, Bool.true_eq_false, Bool.false_eq_true, if_false,
          ite_false]
        simp [make_result]
      | true =>
        have hf2 := hf rfl
        have hvol2 : (ctx2 "volume_node_connectivity").truthy = false := by
          rw [check2Handle_preserve ds mesh ctx1 "face_node_connectivity" vf msf ctx2 hf2
            "volume_node_connectivity" (by decide) (by decide) (by decide) (by decide)]
          exact hvol1
        have hloop : check2Loop ds mesh conns 0 0 [] ctx =
            Except.ok ((0 + if ve then 1 else 0) + (if vf then 1 else 0), 0 + 1 + 1,
              ([] ++ mse) ++ msf, ctx2) := by
          simp only [conns, check2Loop, hedge, hface1, hvol2, he2, hf2, if_true, ite_true,
            Bool.false_eq_true, if_false]
        unfold _check2_connectivity_attrs
        simp only [ht, hma, hloop, Bool.true_eq_false, Bool.false_eq_true, if_false,
          ite_false]
        simp [make_result]

/-- C3 witness: topology dimension 1 with edge_node_connectivity absent
short-circuits with score 0 of 1; topology dimension 1 with only a
valid edge connectivity array scores 1 of 1; and a mesh with valid edge
and face connectivity arrays scores 2 of 2. -/
theorem C3_witness :
    _check2_connectivity_attrs dsEmpty mesh2w ctx3wa =
      Except.ok (make_result BaseCheck.HIGH 0 1 desc2 [], ctx3wa) ∧
    _check2_connectivity_attrs ds3w mesh3e ctx3e =
      Except.ok (make_result BaseCheck.HIGH 1 1 desc2 [], ctx3e1) ∧
    _check2_connectivity_attrs ds3w mesh3w ctx3w =
      Except.ok (make_result BaseCheck.HIGH 2 2 desc2 [], ctx3w2) := by
  refine ⟨?_, ?_, ?_⟩
  · exact C3_theorem.1 dsEmpty mesh2w ctx3wa (Or.inl ⟨rfl, rfl⟩)
  · exact C3_theorem.2 ds3w mesh3e ctx3e ctx3e1 ctx3e1 true false true false [] []
      rfl rfl rfl rfl rfl (fun _ => rfl) (fun h => absurd h (by decide))
      (fun h => absurd h (by decide)) (fun _ => ⟨rfl, rfl, rfl⟩)
  · exact C3_theorem.2 ds3w mesh3w ctx3w ctx3w1 ctx3w2 true true true true [] []
      rfl rfl rfl rfl rfl (fun _ => rfl) (fun h => absurd h (by decide))
      (fun _ => rfl) (fun h => absurd h (by decide))

theorem validate_reduces (ds : Dataset) (mesh : MeshVar) (ctx : MeshCtx)
    (cty cname : String) (k : Nat) (vname : String) (arr : NcVar) (n1 n2 : String)
    (d1 d2 : Dimension)
    (hcty : (cty = "edge_node_connectivity" ∧ cname = "nedges" ∧ k = 2) ∨
            (cty = "face_node_connectivity" ∧ cname = "nfaces" ∧ k = 3))
    (hattr : mesh.getncattr cty = some vname)
    (hvar : ds.getVar vname = some arr)
    (hdims : arr.dims = [n1, n2])
    (hd1 : ds.getDim n1 = some d1) (hd2 : ds.getDim n2 = some d2)
    (hn1 : d1.name = n1) (hn2 : d2.name = n2) :
    _validate_nc_shape ds mesh ctx cty = validateFinish ds ctx cname k d1 d2 := by
  rcases hcty with ⟨hc, hcn, hk⟩ | ⟨hc, hcn, hk⟩ <;> subst hc <;> subst hcn <;> subst hk <;>
    simp [_validate_nc_shape, conns, hattr, hvar, hdims, hd1, hd2, Dataset.hasDim,
      hn1, hn2]

/-- C1 (amended): under the documented hypotheses (attribute present,
array resolvable, both dimension names defined and consistent), the
resolver returns (valid, regular) iff the first dimension name is the
count-dimension name and the second dimension size is the fixed count;
it returns (valid, nonstd) iff the regular test fails and the first
dimension size is the fixed count and the second dimension name is the
count-dimension name (the regular test takes precedence, which is the
only change the counterexample forces); any other combination is
invalid with the context unchanged; and on either valid outcome the
Dataset count dimension is written into the context under cname. -/
theorem C1_theorem (ds : Dataset) (mesh : MeshVar) (ctx : MeshCtx) (cty cname : String)
    (k : Nat) (vname : String) (arr : NcVar) (n1 n2 : String) (d1 d2 : Dimension)
    (hcty : (cty = "edge_node_connectivity" ∧ cname = "nedges" ∧ k = 2) ∨
            (cty = "face_node_connectivity" ∧ cname = "nfaces" ∧ k = 3))
    (hattr : mesh.getncattr cty = some vname)
    (hvar : ds.getVar vname = some arr)
    (hdims : arr.dims = [n1, n2])
    (hd1 : ds.getDim n1 = some d1) (hd2 : ds.getDim n2 = some d2)
    (hn1 : d1.name = n1) (hn2 : d2.name = n2) :
    (orientationOf (_validate_nc_shape ds mesh ctx cty) = some (true, some "regular") ↔
      (n1 = cname ∧ d2.size = k)) ∧
    (orientationOf (_validate_nc_shape ds mesh ctx cty) = some (true, some "nonstd") ↔
      (¬(n1 = cname ∧ d2.size = k) ∧ d1.size = k ∧ n2 = cname)) ∧
    (_validate_nc_shape ds mesh ctx cty = Except.ok ((false, Option.none), ctx) ↔
      (¬(n1 = cname ∧ d2.size = k) ∧ ¬(d1.size = k ∧ n2 = cname))) ∧
    (∀ (o : Option String) (c2 : MeshCtx),
      _validate_nc_shape ds mesh ctx cty = Except.ok ((true, o), c2) →
      ∃ dc, ds.getDim cname = some dc ∧ c2 = ctxSet ctx cname (CtxVal.dim dc)) := by
  have hval := validate_reduces ds mesh ctx cty cname k vname arr n1 n2 d1 d2 hcty
    hattr hvar hdims hd1 hd2 hn1 hn2
  by_cases hreg : d1.name = cname ∧ d2.size = k
  · have hn1c : n1 = cname := by rw [← hn1, hreg.1]
    have hgd : ds.getDim cname = some d1 := by rw [← hreg.1, hn1]; exact hd1
    have hfin : _validate_nc_shape ds mesh ctx cty =
        Except.ok ((true, some "regular"), ctxSet ctx cname (CtxVal.dim d1)) := by
      rw [hval]; unfold validateFinish; rw [if_pos hreg, hgd]
    refine ⟨?_, ?_, ?_, ?_⟩
    · simp [hfin, orientationOf, Except.toOption, hn1c, hreg.2]
    · simp [hfin, orientationOf, Except.toOption, hn1c, hreg.2]
    · simp [hfin, hn1c, hreg.2]
    · intro o c2 heq
      rw [hfin] at heq
      simp only [Except.ok.injEq, Prod.mk.injEq] at heq
      exact ⟨d1, hgd, heq.2.symm⟩
  · have hregn : ¬(n1 = cname ∧ d2.size = k) := fun hh => hreg ⟨hn1.trans hh.1, hh.2⟩
    by_cases hns : d1.size = k ∧ d2.name = cname
    · have hn2c : n2 = cname := by rw [← hn2, hns.2]
      have hgd : ds.getDim cname = some d2 := by rw [← hns.2, hn2]; exact hd2
      have hfin : _validate_nc_shape ds mesh ctx cty =
          Except.ok ((true, some "nonstd"), ctxSet ctx cname (CtxVal.dim d2)) := by
        rw [hval]; unfold validateFinish; rw [if_neg hreg, if_pos hns, hgd]
      refine ⟨?_, ?_, ?_, ?_⟩
      · simp [hfin, orientationOf, Except.toOption, hregn]
      · simp [hfin, orientationOf, Except.toOption, hregn, hns.1, hn2c]
      · simp [hfin, hregn, hns.1, hn2c]
      · intro o c2 heq
        rw [hfin] at heq
        simp only [Except.ok.injEq, Prod.mk.injEq] at heq
        exact ⟨d2, hgd, heq.2.symm⟩
    · have hnsn : ¬(d1.size = k ∧ n2 = cname) := fun hh => hns ⟨hh.1, hn2.trans hh.2⟩
      have hfin : _validate_nc_shape ds mesh ctx cty =
          Except.ok ((false, Option.none), ctx) := by
        rw [hval]; unfold validateFinish; rw [if_neg hreg, if_neg hns]
      refine ⟨?_, ?_, ?_, ?_⟩
      · simp [hfin, orientationOf, Except.toOption, hregn]
      · simp [hfin, orientationOf, Except.toOption, hregn, hnsn]
      · simp [hfin, hregn, hnsn]
      · intro o c2 heq
        rw [hfin] at heq
        simp at heq

/-- C1 witness: a regularly ordered (nedges, 2) edge connectivity array
is accepted with the regular orientation. -/
theorem C1_witness :
    orientationOf (_validate_nc_shape ds1w mesh1w ctxEmpty "edge_node_connectivity") =
      some (true, some "regular") := by
  have h := (C1_theorem ds1w mesh1w ctxEmpty "edge_node_connectivity" "nedges" 2 "enc2"
    ⟨["nedges", "two"], [4, 2]⟩ "nedges" "two" ⟨"nedges", 4⟩ ⟨"two", 2⟩
    (Or.inl ⟨rfl, rfl, rfl⟩) rfl rfl rfl rfl rfl rfl rfl).1
  exact h.mpr ⟨rfl, rfl⟩
